import Mathlib

/-!
Verification development for the Kp index space weather monitor.

The definitions below are a shallow embedding of the analysis and
alert-decision logic of `src/src/kp_index_monitor.py` together with the
threshold validation of `src/src/config.py`.  Python floats that the source
writes as two-decimal literals (the Kp bucket values) are modelled as exact
rationals with denominator 100; timestamps are modelled as integers (minutes
since an arbitrary epoch, only order and differences matter); a value that
Python would fail to convert (a missing column entry, a non-numeric cell, an
unparsable timestamp) is modelled as `none`.  Concrete rationals are built
with `mkRat`, which evaluates inside the kernel; `mkRat a b` equals `a / b`
(`Rat.mkRat_eq_div`).
-/

/-- Rounding of a rational to an integer with ties going to the even
integer, which is how `numpy.round` resolves halves.  Implemented on the
numerator and denominator: `f` is the floor of `x` and `r` the remainder,
so the fractional part of `x` is `r / d`. -/
def roundHalfEven (x : ℚ) : ℤ :=
  let n := x.num
  let d : ℤ := (x.den : ℤ)
  let f := Int.fdiv n d
  let r := n - f * d
  if 2 * r < d then f
  else if d < 2 * r then f + 1
  else if f % 2 = 0 then f else f + 1

/-- Model of `np.round(x, 2)`: round to two decimal places, ties to even.
`mkRat (100 * x.num) x.den` is `100 * x` and the final `mkRat _ 100`
divides the rounded integer by `100` again. -/
def round2 (x : ℚ) : ℚ :=
  mkRat (roundHalfEven (mkRat (100 * x.num) x.den)) 100

/-- The `KP_TO_DECIMAL` dictionary of `kp_index_monitor.py` (lines 49 to 60),
in source order: label of a Kp bucket paired with its decimal value. -/
def KP_TO_DECIMAL : List (String × ℚ) :=
  [("0", 0), ("0+", mkRat 33 100),
   ("1-", mkRat 67 100), ("1", 1), ("1+", mkRat 133 100),
   ("2-", mkRat 167 100), ("2", 2), ("2+", mkRat 233 100),
   ("3-", mkRat 267 100), ("3", 3), ("3+", mkRat 333 100),
   ("4-", mkRat 367 100), ("4", 4), ("4+", mkRat 433 100),
   ("5-", mkRat 467 100), ("5", 5), ("5+", mkRat 533 100),
   ("6-", mkRat 567 100), ("6", 6), ("6+", mkRat 633 100),
   ("7-", mkRat 667 100), ("7", 7), ("7+", mkRat 733 100),
   ("8-", mkRat 767 100), ("8", 8), ("8+", mkRat 833 100),
   ("9-", mkRat 867 100), ("9", 9)]

/-- The inverted dictionary `DECIMAL_TO_KP` (line 62). -/
def DECIMAL_TO_KP : List (ℚ × String) :=
  KP_TO_DECIMAL.map (fun p => (p.2, p.1))

/-- Lookup `DECIMAL_TO_KP[x]`: `none` models the `KeyError` that the Python
dictionary access raises when `x` is not one of the bucket values. -/
def decimal_to_label (x : ℚ) : Option String :=
  (DECIMAL_TO_KP.find? (fun p => decide (p.1 = x))).map Prod.snd

/-- Lookup `KP_TO_DECIMAL[s]`: `none` models the `KeyError` for an unknown
bucket label. -/
def label_to_decimal (s : String) : Option ℚ :=
  (KP_TO_DECIMAL.find? (fun p => decide (p.1 = s))).map Prod.snd

/-- The threshold range check of `MonitorConfig.validate`
(`src/src/config.py` line 113): `0 <= kp_alert_threshold <= 9`. -/
def validateThreshold (th : ℚ) : Bool :=
  decide (0 ≤ th) && decide (th ≤ 9)

/-- Threshold processing of `KpMonitor.__init__` (lines 81 to 82): the
configured threshold is rounded to two decimal places with `np.round` and
then rendered through `DECIMAL_TO_KP`; a failed lookup (`none`) models the
`KeyError` that aborts initialisation.  On success the pair of the rounded
threshold (used for every later comparison) and its label is returned. -/
def monitorInitThreshold (th : ℚ) : Option (ℚ × String) :=
  (decimal_to_label (round2 th)).map (fun s => (round2 th, s))

/-- The severity classifier `KpMonitor.get_status_level_color`
(lines 393 to 424): status, storm level and colour for a Kp value.  The
initial `UNKNOWN` assignments of the source are dead because the trailing
`else` branch always assigns; the chain of conditions is translated as is. -/
def get_status_level_color (kp : ℚ) : String × String × String :=
  if kp = 9 then ("EXTREME STORM CONDITIONS", "G5", "#FE0004")
  else if 8 ≤ kp then ("SEVERE STORM CONDITIONS", "G4", "#FE0004")
  else if 7 ≤ kp then ("STRONG STORM CONDITIONS", "G3", "#FD0007")
  else if 6 ≤ kp then ("MODERATE STORM CONDITIONS", "G2", "#FF4612")
  else if 5 ≤ kp then ("MINOR STORM CONDITIONS", "G1", "#FE801D")
  else if 4 ≤ kp then ("ACTIVE CONDITIONS", "ACTIVE", "#FFFA3D")
  else ("QUIET CONDITIONS", "QUIET", "#5cb85c")

/-- Severity classifier written from the words of the specification
(section 4.2): a step function over the bands with inclusive lower bounds,
evaluated from the top down, the top band being `index >= 9.00`.  This is the
specification side of the refinement comparison for claim C7 and is
deliberately not derived from the source. -/
def classifySpec (kp : ℚ) : String × String × String :=
  if 9 ≤ kp then ("EXTREME STORM CONDITIONS", "G5", "#FE0004")
  else if 8 ≤ kp then ("SEVERE STORM CONDITIONS", "G4", "#FE0004")
  else if 7 ≤ kp then ("STRONG STORM CONDITIONS", "G3", "#FD0007")
  else if 6 ≤ kp then ("MODERATE STORM CONDITIONS", "G2", "#FF4612")
  else if 5 ≤ kp then ("MINOR STORM CONDITIONS", "G1", "#FE801D")
  else if 4 ≤ kp then ("ACTIVE CONDITIONS", "ACTIVE", "#FFFA3D")
  else ("QUIET CONDITIONS", "QUIET", "#5cb85c")

example : round2 (mkRat 41 10) = mkRat 41 10 := by decide
example : round2 (mkRat 333 1000) = mkRat 33 100 := by decide
example : round2 (mkRat 45 10) = mkRat 45 10 := by decide
example : decimal_to_label (mkRat 533 100) = some ("5+") := by decide
example : decimal_to_label (mkRat 41 10) = none := by decide
example : label_to_decimal ("5+") = some (mkRat 533 100) := by decide
example : KP_TO_DECIMAL.length = 28 := by decide
example : monitorInitThreshold (mkRat 41 10) = none := by decide
example : monitorInitThreshold 5 = some (5, "5") := by decide
example : get_status_level_color 10 = ("SEVERE STORM CONDITIONS", "G4", "#FE0004") := by decide
example : get_status_level_color (-1) = ("QUIET CONDITIONS", "QUIET", "#5cb85c") := by decide
example : get_status_level_color 9 = ("EXTREME STORM CONDITIONS", "G5", "#FE0004") := by decide

/-- One raw row of the fetched forecast table.  A field is `none` when the
corresponding cell would make the Python conversion raise: an unparsable
`Time (UTC)` string, a non-numeric `maximum`, or a non-numeric ensemble
member cell.  The `minimum` and `median` columns are never converted inside
`analyze_kp_data`, so a bad value there does not abort the analysis; they are
carried through unchanged. -/
structure RawRecord where
  time : Option ℤ
  minimum : Option ℚ
  median : Option ℚ
  maximum : Option ℚ
  members : List (Option ℚ)
deriving DecidableEq

/-- A fully converted forecast row as it exists after the conversions of
`analyze_kp_data` succeed.  `members` holds the values of the dynamically
discovered ensemble columns in column order. -/
structure KpRecord where
  time : ℤ
  minimum : Option ℚ
  median : Option ℚ
  maximum : ℚ
  members : List ℚ
deriving DecidableEq

/-- Conversion of one raw row: fails (`none`) exactly when one of the cells
that `analyze_kp_data` converts or compares is unusable. -/
def parseRow (r : RawRecord) : Option KpRecord := do
  let t ← r.time
  let mx ← r.maximum
  let ms ← r.members.mapM id
  pure { time := t, minimum := r.minimum, median := r.median, maximum := mx, members := ms }

/-- The `DataFrame.round(2)` applied to the windows and kept rows
(lines 179 to 182): every numeric column of a row is rounded to two decimal
places; the timestamp column is untouched. -/
def roundRec2 (r : KpRecord) : KpRecord :=
  { r with
    minimum := r.minimum.map round2
    median := r.median.map round2
    maximum := round2 r.maximum
    members := r.members.map round2 }

/-- The `AnalysisResults` dataclass (lines 35 to 45).  `probability_df`
models the probability DataFrame indexed by the timestamp column. -/
structure AnalysisResults where
  current_max_kp : ℚ
  threshold_exceeded : Bool
  high_kp_records : List KpRecord
  next_24h_forecast : List KpRecord
  alert_worthy : Bool
  probability_df : List (ℤ × ℚ)
deriving DecidableEq

/-- The per-row exceedance probability of line 160:
`np.sum(df[self.ensembles] >= self.config.kp_alert_threshold, axis=1) /
self.total_ensembles`, the count of ensemble member values meeting the
threshold divided by the number of ensemble columns (`mkRat c n` is
`c / n`). -/
def ensembleProbability (th : ℚ) (totalEnsembles : ℕ) (r : KpRecord) : ℚ :=
  mkRat (r.members.countP (fun v => decide (th ≤ v))) totalEnsembles

/-- The matcher of line 158, `re.match(r"kp_\d+", col)`: the column name
starts with `kp_` followed by at least one digit (anything may follow). -/
def isEnsembleCol (s : String) : Bool :=
  match s.toList with
  | 'k' :: 'p' :: '_' :: c :: _ => c.isDigit
  | _ => false

/-- Maximum of a list of rationals, `none` on the empty list; models
`pandas.Series.max`, which yields `NaN` for an empty column. -/
def maxOfList : List ℚ → Option ℚ
  | [] => none
  | x :: xs => some (xs.foldl (fun a b => if a ≤ b then b else a) x)

/-- The body of the `try` block of `analyze_kp_data` (lines 153 to 188)
after all conversions succeeded, on the fully converted rows:
`currentMax` is the already rounded maximum of the `maximum` column,
`totalEnsembles` the number of discovered ensemble columns.  The two
sequential filters of lines 165 and 166 build the exceedance window, the
filter plus `head(8)` of line 167 the rolling window, and everything kept is
rounded to two decimals at construction (lines 176 to 183). -/
def analyzeParsed (th : ℚ) (now : ℤ) (totalEnsembles : ℕ) (currentMax : ℚ)
    (rows : List KpRecord) : AnalysisResults :=
  let high1 := rows.filter (fun r => decide (th ≤ r.maximum))
  let high_kp_records := high1.filter (fun r => decide (now ≤ r.time))
  let next_24h := (rows.filter (fun r => decide (now ≤ r.time))).take 8
  { current_max_kp := currentMax
    threshold_exceeded := decide (th < currentMax)
    high_kp_records := high_kp_records.map roundRec2
    next_24h_forecast := next_24h.map roundRec2
    alert_worthy := decide (0 < high_kp_records.length)
    probability_df := rows.map (fun r => (r.time, round2 (ensembleProbability th totalEnsembles r))) }

/-- Outcome of `analyze_kp_data`: either the full `AnalysisResults`, or the
partial fallback dictionary `{"alert_worthy": False, "current_max_kp": 0}`
that the `except` clause of lines 190 to 192 returns after any exception. -/
inductive AnalysisOutcome where
  | ok (res : AnalysisResults)
  | fallback
deriving DecidableEq

/-- Key access `analysis["alert_worthy"]`, defined on both the dataclass and
the fallback dictionary. -/
def AnalysisOutcome.alert_worthy : AnalysisOutcome → Bool
  | .ok r => r.alert_worthy
  | .fallback => false

/-- Key access `analysis["current_max_kp"]`, defined on both the dataclass
and the fallback dictionary. -/
def AnalysisOutcome.current_max_kp : AnalysisOutcome → ℚ
  | .ok r => r.current_max_kp
  | .fallback => 0

/-- The full `AnalysisResults`, when the pass completed. -/
def AnalysisOutcome.getResult : AnalysisOutcome → Option AnalysisResults
  | .ok r => some r
  | .fallback => none

/-- The whole of `KpMonitor.analyze_kp_data` (lines 134 to 192) including
its exception handler.  Any conversion failure inside the `try` block ends
in the `except` branch, which returns the fallback.  The final `match` on
`decimal_to_label` models the `DECIMAL_TO_KP[current_max]` lookup in the
success log line 186: when the rounded column maximum is not a legal bucket
value (also when the table is empty and the maximum is `NaN`) that lookup
raises `KeyError` inside the `try` block, and the fallback is returned as
well. -/
def analyzeKpData (th : ℚ) (now : ℤ) (cols : List String)
    (raws : List RawRecord) : AnalysisOutcome :=
  match raws.mapM parseRow with
  | none => .fallback
  | some rows =>
    match maxOfList (rows.map KpRecord.maximum) with
    | none => .fallback
    | some m =>
      match decimal_to_label (round2 m) with
      | none => .fallback
      | some _ =>
        .ok (analyzeParsed th now ((cols.filter isEnsembleCol).length) (round2 m) rows)

/-- The process-wide alert decision state (`__init__`, lines 76 to 77):
`last_alert_time = None` and `last_max_kp = 0` at start. -/
structure AlertDecisionState where
  last_alert_time : Option ℤ
  last_max_kp : ℚ
deriving DecidableEq

/-- The state at process start. -/
def initState : AlertDecisionState := { last_alert_time := none, last_max_kp := 0 }

/-- `KpMonitor.should_send_alert` (lines 453 to 479).  The 6-hour cooldown
check of the source is commented out (lines 471 to 479), so the function
returns `alert_worthy` unconditionally. -/
def should_send_alert (analysis : AnalysisOutcome) : Bool :=
  if !analysis.alert_worthy then false else true

/-- The state change performed by `run_single_check` (lines 500 to 516):
when `should_send_alert` is true an alert is attempted, and on a successful
send the state records the dispatch time and the reported maximum; in every
other case the state is untouched. -/
def runSingleCheckState (analysis : AnalysisOutcome) (emailSent : Bool)
    (now : ℤ) (s : AlertDecisionState) : AlertDecisionState :=
  if should_send_alert analysis then
    if emailSent then
      { last_alert_time := some now, last_max_kp := analysis.current_max_kp }
    else s
  else s

example : isEnsembleCol ("kp_07") = true := by decide
example : isEnsembleCol ("kp_x") = false := by decide
example : isEnsembleCol ("maximum") = false := by decide
example : maxOfList [1, 3, 2] = some 3 := by decide
example :
    analyzeKpData 5 0 [("kp_0")]
      [{ time := some 180, minimum := some 5, median := some 5,
         maximum := some (mkRat 533 100), members := [some (mkRat 533 100)] }] =
    AnalysisOutcome.ok
      { current_max_kp := mkRat 533 100
        threshold_exceeded := true
        high_kp_records := [{ time := 180, minimum := some 5, median := some 5,
                              maximum := mkRat 533 100, members := [mkRat 533 100] }]
        next_24h_forecast := [{ time := 180, minimum := some 5, median := some 5,
                                maximum := mkRat 533 100, members := [mkRat 533 100] }]
        alert_worthy := true
        probability_df := [(180, 1)] } := by decide
example :
    analyzeKpData 5 0 [("kp_0")]
      [{ time := some 180, minimum := none, median := none,
         maximum := none, members := [] }] = AnalysisOutcome.fallback := by decide

/-- Helper: rounding a row to two decimals does not change its timestamp. -/
theorem roundRec2_time (r : KpRecord) : (roundRec2 r).time = r.time := rfl

/-- Helper: the codec lookup succeeds exactly on the decimals that appear in
the `KP_TO_DECIMAL` table. -/
theorem decimal_to_label_isSome (x : ℚ) :
    (decimal_to_label x).isSome ↔ x ∈ KP_TO_DECIMAL.map Prod.snd := by
  unfold decimal_to_label
  rw [Option.isSome_map', List.find?_isSome]
  constructor
  · rintro ⟨p, hp, hpx⟩
    have hx : p.1 = x := of_decide_eq_true hpx
    unfold DECIMAL_TO_KP at hp
    rcases List.mem_map.mp hp with ⟨q, hq, rfl⟩
    exact List.mem_map.mpr ⟨q, hq, hx⟩
  · intro hx
    rcases List.mem_map.mp hx with ⟨q, hq, hqx⟩
    refine ⟨(q.2, q.1), ?_, decide_eq_true hqx⟩
    exact List.mem_map.mpr ⟨q, hq, rfl⟩

/-- C7: on the index range `[0, 9]` the severity classifier agrees with the
specification's step function over the bands with inclusive lower bounds,
and every boundary value maps to the band whose lower bound equals it; in
particular `9.00` classifies as EXTREME STORM / G5 and `8.00` as SEVERE
STORM / G4. -/
theorem c7_classifier_inclusive_bands :
    (∀ kp : ℚ, 0 ≤ kp → kp ≤ 9 → get_status_level_color kp = classifySpec kp) ∧
    get_status_level_color 9 = ("EXTREME STORM CONDITIONS", "G5", "#FE0004") ∧
    get_status_level_color 8 = ("SEVERE STORM CONDITIONS", "G4", "#FE0004") ∧
    get_status_level_color 7 = ("STRONG STORM CONDITIONS", "G3", "#FD0007") ∧
    get_status_level_color 6 = ("MODERATE STORM CONDITIONS", "G2", "#FF4612") ∧
    get_status_level_color 5 = ("MINOR STORM CONDITIONS", "G1", "#FE801D") ∧
    get_status_level_color 4 = ("ACTIVE CONDITIONS", "ACTIVE", "#FFFA3D") := by
  refine ⟨?_, by decide, by decide, by decide, by decide, by decide, by decide⟩
  intro kp _ h9
  rcases eq_or_lt_of_le h9 with heq | hlt
  · subst heq; decide
  · unfold get_status_level_color classifySpec
    rw [if_neg (ne_of_lt hlt), if_neg (not_le.mpr hlt)]

/-- C7 witness: the classifier agrees with the specification step function
at the concrete in-range value `5.33`. -/
theorem c7_classifier_inclusive_bands_witness :
    (0 : ℚ) ≤ mkRat 533 100 ∧ mkRat 533 100 ≤ 9 ∧
    get_status_level_color (mkRat 533 100) = classifySpec (mkRat 533 100) :=
  ⟨by decide, by decide,
   c7_classifier_inclusive_bands.1 (mkRat 533 100) (by decide) (by decide)⟩

/-- C6 counterexample: the classifier does not fail on inputs outside
`[0, 9]`.  The out-of-range value `-1` classifies as QUIET and the
out-of-range value `10` classifies as SEVERE STORM / G4, contradicting the
claim that such inputs fail with `OutOfRange`. -/
theorem c6_counterexample_no_failure_outside_range :
    get_status_level_color (-1) = ("QUIET CONDITIONS", "QUIET", "#5cb85c") ∧
    get_status_level_color 10 = ("SEVERE STORM CONDITIONS", "G4", "#FE0004") := by
  decide

/-- C6 amended: the classifier is total and never rejects an input; every
negative index classifies as QUIET and every index above `9` classifies as
SEVERE STORM / G4 (the `kp == 9` branch is skipped, the `kp >= 8` branch
taken). -/
theorem c6_amended_classifier_total :
    ∀ kp : ℚ,
      (kp < 0 → get_status_level_color kp = ("QUIET CONDITIONS", "QUIET", "#5cb85c")) ∧
      (9 < kp → get_status_level_color kp = ("SEVERE STORM CONDITIONS", "G4", "#FE0004")) := by
  intro kp
  constructor
  · intro h
    unfold get_status_level_color
    split_ifs with h1 h2 h3 h4 h5 h6 <;> first | rfl | (exfalso; linarith)
  · intro h
    unfold get_status_level_color
    split_ifs with h1 h2 <;> first | rfl | (exfalso; linarith)

/-- C6 witness: the amended statement applied at the concrete out-of-range
inputs `-1` and `10`. -/
theorem c6_amended_classifier_total_witness :
    ((-1 : ℚ) < 0 ∧
      get_status_level_color (-1) = ("QUIET CONDITIONS", "QUIET", "#5cb85c")) ∧
    ((9 : ℚ) < 10 ∧
      get_status_level_color 10 = ("SEVERE STORM CONDITIONS", "G4", "#FE0004")) :=
  ⟨⟨by decide, (c6_amended_classifier_total (-1)).1 (by decide)⟩,
   ⟨by decide, (c6_amended_classifier_total 10).2 (by decide)⟩⟩

/-- C9 counterexample: the level codec is defined on 28 distinct decimal
values (0.00 to 9.00 in steps of a third), not 27 as the claim states: the
domain of `decimal_to_label` has 28 pairwise distinct members, each of which
is mapped to a label. -/
theorem c9_counterexample_codec_has_28_values :
    (DECIMAL_TO_KP.map Prod.fst).Nodup ∧
    DECIMAL_TO_KP.length = 28 ∧
    (DECIMAL_TO_KP.map Prod.fst).all (fun x => (decimal_to_label x).isSome) = true := by
  decide

/-- C9 amended: the level codec is a total bijection over exactly 28
values: both round trips hold for every entry of the table, and
`decimal_to_label` fails (`KeyError`, modelled as `none`) on every decimal
that is not one of the 28 bucket values. -/
theorem c9_amended_codec_bijection_28 :
    (∀ p ∈ KP_TO_DECIMAL,
      decimal_to_label p.2 = some p.1 ∧ label_to_decimal p.1 = some p.2) ∧
    (∀ x : ℚ, x ∉ KP_TO_DECIMAL.map Prod.snd → decimal_to_label x = none) := by
  constructor
  · decide
  · intro x hx
    have hfind : DECIMAL_TO_KP.find? (fun p => decide (p.1 = x)) = none := by
      rw [List.find?_eq_none]
      rintro ⟨a, b⟩ hab hdec
      have hax : a = x := of_decide_eq_true hdec
      apply hx
      unfold DECIMAL_TO_KP at hab
      rcases List.mem_map.mp hab with ⟨q, hq, hqe⟩
      have : q.2 = a := congrArg Prod.fst hqe
      exact List.mem_map.mpr ⟨q, hq, this.trans hax⟩
    unfold decimal_to_label
    rw [hfind]
    rfl

/-- C9 witness: the round trips at the concrete bucket `5+` (5.33) and the
failure of `decimal_to_label` at the concrete non-bucket decimal `1/2`. -/
theorem c9_amended_codec_bijection_28_witness :
    decimal_to_label (mkRat 533 100) = some ("5+") ∧
    label_to_decimal ("5+") = some (mkRat 533 100) ∧
    decimal_to_label (mkRat 1 2) = none :=
  ⟨(c9_amended_codec_bijection_28.1 (("5+"), mkRat 533 100) (by decide)).1,
   (c9_amended_codec_bijection_28.1 (("5+"), mkRat 533 100) (by decide)).2,
   c9_amended_codec_bijection_28.2 (mkRat 1 2) (by decide)⟩

/-- C4 counterexample: the threshold `4.1` lies in `[0, 9]` and is not one
of the legal bucket values, so the claim requires it to be rounded to the
nearest legal bucket; instead monitor initialisation rounds only to two
decimal places and the codec lookup fails (`KeyError`), so loading aborts. -/
theorem c4_counterexample_threshold_not_bucket_rounded :
    validateThreshold (mkRat 41 10) = true ∧
    (mkRat 41 10 ∉ KP_TO_DECIMAL.map Prod.snd) ∧
    monitorInitThreshold (mkRat 41 10) = none := by
  decide

/-- C4 amended: loading rounds the configured threshold to two decimal
places (numpy half-to-even), never to a bucket: when initialisation
succeeds the threshold used for comparisons is exactly the two-decimal
rounding of the configured value, and initialisation succeeds precisely
when that rounding is one of the 28 bucket values. -/
theorem c4_amended_threshold_two_decimal_rounding :
    (∀ (th : ℚ) (p : ℚ × String),
      monitorInitThreshold th = some p → p.1 = round2 th) ∧
    (∀ th : ℚ,
      (monitorInitThreshold th).isSome ↔ round2 th ∈ KP_TO_DECIMAL.map Prod.snd) := by
  constructor
  · intro th p hp
    unfold monitorInitThreshold at hp
    rcases h : decimal_to_label (round2 th) with _ | s
    · rw [h] at hp; cases hp
    · rw [h] at hp
      cases hp
      rfl
  · intro th
    unfold monitorInitThreshold
    rw [Option.isSome_map']
    exact decimal_to_label_isSome (round2 th)

/-- C4 witness: the amended statement at the concrete threshold `4.33`,
whose two-decimal rounding is itself and is a bucket value, so
initialisation succeeds and uses it unchanged. -/
theorem c4_amended_threshold_two_decimal_rounding_witness :
    mkRat 433 100 = round2 (mkRat 433 100) ∧
    (monitorInitThreshold (mkRat 433 100)).isSome :=
  ⟨c4_amended_threshold_two_decimal_rounding.1 (mkRat 433 100)
      (mkRat 433 100, ("4+")) (by decide),
   (c4_amended_threshold_two_decimal_rounding.2 (mkRat 433 100)).mpr (by decide)⟩

/-- Concrete alert-worthy forecast table for claim C1: one record three
hours in the future whose `maximum` of 5.33 exceeds the threshold 5.00. -/
def c1Table : List RawRecord :=
  [{ time := some 180, minimum := some 5, median := some (mkRat 533 100),
     maximum := some (mkRat 533 100), members := [some (mkRat 533 100)] }]

/-- C1 counterexample: with an alert-worthy analysis and a prior dispatch
recorded 2 hours ago (less than the 6-hour cooldown), the claim requires
the decision to be Suppressed with the state unchanged; instead
`should_send_alert` returns true and a successful send overwrites the
decision state.  The cooldown check in the source is commented out. -/
theorem c1_counterexample_cooldown_not_applied :
    should_send_alert (analyzeKpData 5 0 [("kp_0")] c1Table) = true ∧
    ((0 : ℤ) - (-120) < 6 * 60) ∧
    runSingleCheckState (analyzeKpData 5 0 [("kp_0")] c1Table) true 0
        { last_alert_time := some (-120), last_max_kp := 5 } ≠
      { last_alert_time := some (-120), last_max_kp := 5 } := by
  decide

/-- C1 amended: cooldown suppression is disabled in the code (the 6-hour
check is commented out): for every analysis pass whose exceedance window is
non-empty, `should_send_alert` returns true regardless of the recorded prior
dispatch, and after a successful dispatch the decision state is overwritten
with the new dispatch time and reported maximum. -/
theorem c1_amended_cooldown_disabled :
    ∀ (analysis : AnalysisOutcome) (s : AlertDecisionState) (now : ℤ),
      analysis.alert_worthy = true →
      should_send_alert analysis = true ∧
      runSingleCheckState analysis true now s =
        { last_alert_time := some now, last_max_kp := analysis.current_max_kp } := by
  intro a s now h
  have hsend : should_send_alert a = true := by
    unfold should_send_alert
    rw [h]
    rfl
  refine ⟨hsend, ?_⟩
  unfold runSingleCheckState
  rw [hsend]
  rfl

/-- C1 witness: the amended statement at the concrete alert-worthy table,
starting from the initial decision state. -/
theorem c1_amended_cooldown_disabled_witness :
    should_send_alert (analyzeKpData 5 0 [("kp_0")] c1Table) = true ∧
    runSingleCheckState (analyzeKpData 5 0 [("kp_0")] c1Table) true 360 initState =
      { last_alert_time := some 360,
        last_max_kp := (analyzeKpData 5 0 [("kp_0")] c1Table).current_max_kp } :=
  c1_amended_cooldown_disabled (analyzeKpData 5 0 [("kp_0")] c1Table) initState 360
    (by decide)

/-- Concrete malformed forecast table for claim C5: the `maximum` cell of
the only row is not numeric, so `astype(float)` raises inside the pass. -/
def c5BadTable : List RawRecord :=
  [{ time := some 0, minimum := none, median := none, maximum := none,
     members := [] }]

/-- C5 counterexample: on a malformed table the pass does not surface an
`AnalysisFailed` error to the caller; `analyze_kp_data` returns the
best-effort partial fallback dictionary, whose `alert_worthy` is false and
whose `current_max_kp` is 0. -/
theorem c5_counterexample_no_error_surfaced :
    analyzeKpData 5 0 [("kp_0")] c5BadTable = AnalysisOutcome.fallback ∧
    (analyzeKpData 5 0 [("kp_0")] c5BadTable).alert_worthy = false ∧
    (analyzeKpData 5 0 [("kp_0")] c5BadTable).current_max_kp = 0 := by
  decide

/-- C5 amended: any exception during an analysis pass is caught inside
`analyze_kp_data` and a partial fallback result is returned instead of an
error being surfaced to the caller; nevertheless no notification is ever
sent from an incomplete analysis, because an alert is only possible when a
full `AnalysisResults` was produced. -/
theorem c5_amended_exceptions_swallowed :
    (∀ (th : ℚ) (now : ℤ) (cols : List String) (raws : List RawRecord),
      raws.mapM parseRow = none →
      analyzeKpData th now cols raws = AnalysisOutcome.fallback) ∧
    (∀ (th : ℚ) (now : ℤ) (cols : List String) (raws : List RawRecord),
      should_send_alert (analyzeKpData th now cols raws) = true →
      (analyzeKpData th now cols raws).getResult.isSome = true) := by
  constructor
  · intro th now cols raws h
    unfold analyzeKpData
    rw [h]
  · intro th now cols raws h
    rcases hA : analyzeKpData th now cols raws with res | _
    · rfl
    · rw [hA] at h
      exact absurd h (by decide)

/-- Concrete well-formed alert-worthy table for the C5 witness. -/
def c5GoodTable : List RawRecord :=
  [{ time := some 60, minimum := some 6, median := some 6,
     maximum := some 6, members := [some 6] }]

/-- Concrete malformed forecast table (unparsable timestamp) for the C5
witness. -/
def c5BadTimeTable : List RawRecord :=
  [{ time := none, minimum := none, median := none, maximum := some 5,
     members := [] }]

/-- C5 witness: the amended statement applied at a concrete malformed table
(unparsable timestamp) and at a concrete alert-worthy table. -/
theorem c5_amended_exceptions_swallowed_witness :
    analyzeKpData 4 0 [("kp_1")] c5BadTimeTable = AnalysisOutcome.fallback ∧
    (analyzeKpData 4 0 [("kp_1")] c5GoodTable).getResult.isSome = true :=
  ⟨c5_amended_exceptions_swallowed.1 4 0 [("kp_1")] c5BadTimeTable (by decide),
   c5_amended_exceptions_swallowed.2 4 0 [("kp_1")] c5GoodTable (by decide)⟩

/-- C10: the analysis function never raises to its caller: whenever a cell
conversion fails (missing or non-numeric `maximum`, unparsable timestamp,
non-numeric ensemble member), `analyze_kp_data` returns the fallback with
`alert_worthy = false` and `current_max_kp = 0`, and no alert is sent from
such a pass. -/
theorem c10_malformed_table_fallback :
    ∀ (th : ℚ) (now : ℤ) (cols : List String) (raws : List RawRecord),
      raws.mapM parseRow = none →
      analyzeKpData th now cols raws = AnalysisOutcome.fallback ∧
      (analyzeKpData th now cols raws).alert_worthy = false ∧
      (analyzeKpData th now cols raws).current_max_kp = 0 ∧
      should_send_alert (analyzeKpData th now cols raws) = false := by
  intro th now cols raws h
  have hA : analyzeKpData th now cols raws = AnalysisOutcome.fallback := by
    unfold analyzeKpData
    rw [h]
  refine ⟨hA, ?_, ?_, ?_⟩ <;> rw [hA] <;> rfl

/-- Concrete malformed forecast table for the C10 witness: the second
ensemble member cell of the only row is non-numeric. -/
def c10BadTable : List RawRecord :=
  [{ time := some 0, minimum := some 1, median := some 1, maximum := some 2,
     members := [some 1, none] }]

/-- C10 witness: the fallback behaviour at a concrete malformed table. -/
theorem c10_malformed_table_fallback_witness :
    analyzeKpData 5 0 [("kp_0"), ("kp_1")] c10BadTable =
      AnalysisOutcome.fallback ∧
    (analyzeKpData 5 0 [("kp_0"), ("kp_1")] c10BadTable).alert_worthy = false ∧
    (analyzeKpData 5 0 [("kp_0"), ("kp_1")] c10BadTable).current_max_kp = 0 ∧
    should_send_alert (analyzeKpData 5 0 [("kp_0"), ("kp_1")] c10BadTable) =
      false :=
  c10_malformed_table_fallback 5 0 [("kp_0"), ("kp_1")] c10BadTable (by decide)


/-- Helper: a completed analysis pass is exactly the `try`-block body
applied to the converted rows, with the ensemble-column count discovered
from the column names. -/
theorem analyzeKpData_ok_elim {th : ℚ} {now : ℤ} {cols : List String}
    {raws : List RawRecord} {rows : List KpRecord} {res : AnalysisResults}
    (hparse : raws.mapM parseRow = some rows)
    (hok : analyzeKpData th now cols raws = AnalysisOutcome.ok res) :
    ∃ cm : ℚ,
      res = analyzeParsed th now ((cols.filter isEnsembleCol).length) cm rows := by
  unfold analyzeKpData at hok
  split at hok
  · cases hok
  · next rows2 hrows2 =>
    rw [hparse] at hrows2
    injection hrows2 with hr
    subst hr
    split at hok
    · cases hok
    · next m hm =>
      split at hok
      · cases hok
      · injection hok with h
        exact ⟨round2 m, h.symm⟩

/-- Concrete forecast table of nine future records for claim C2, three
hours apart starting at the reference instant. -/
def c2NineTable : List RawRecord :=
  [{ time := some 0, minimum := some 1, median := some 2, maximum := some 3,
     members := [some 3] },
   { time := some 180, minimum := some 1, median := some 2, maximum := some 3,
     members := [some 3] },
   { time := some 360, minimum := some 1, median := some 2, maximum := some 3,
     members := [some 3] },
   { time := some 540, minimum := some 1, median := some 2, maximum := some 3,
     members := [some 3] },
   { time := some 720, minimum := some 1, median := some 2, maximum := some 3,
     members := [some 3] },
   { time := some 900, minimum := some 1, median := some 2, maximum := some 3,
     members := [some 3] },
   { time := some 1080, minimum := some 1, median := some 2, maximum := some 3,
     members := [some 3] },
   { time := some 1260, minimum := some 1, median := some 2, maximum := some 3,
     members := [some 3] },
   { time := some 1440, minimum := some 1, median := some 2, maximum := some 3,
     members := [some 3] }]

/-- C2 counterexample: a table of nine records, all with timestamp at or
after the reference instant, yields a rolling window of eight records, not
nine as the claim states (`head(8)` in the source); the probability series
confirms that all nine records are present and future. -/
theorem c2_counterexample_window_has_eight :
    ((analyzeKpData 5 0 [("kp_0")] c2NineTable).getResult.map
        (fun r => r.next_24h_forecast.length)) = some 8 ∧
    ((analyzeKpData 5 0 [("kp_0")] c2NineTable).getResult.map
        (fun r => r.probability_df.length)) = some 9 ∧
    ((analyzeKpData 5 0 [("kp_0")] c2NineTable).getResult.map
        (fun r => r.probability_df.countP (fun p => decide ((0 : ℤ) ≤ p.1)))) =
      some 9 := by
  decide

/-- C2 amended: the rolling window of a completed analysis pass is the
first eight records (in table order) with timestamp at or after the
reference instant, rounded to two decimals: it never holds more than eight
records, never holds a record with timestamp before the reference instant,
returns all qualifying records when fewer than eight exist, and is in
ascending timestamp order whenever the input table is. -/
theorem c2_amended_rolling_window_eight :
    ∀ (th : ℚ) (now : ℤ) (cols : List String) (raws : List RawRecord)
      (rows : List KpRecord) (res : AnalysisResults),
      raws.mapM parseRow = some rows →
      analyzeKpData th now cols raws = AnalysisOutcome.ok res →
      res.next_24h_forecast =
        ((rows.filter (fun r => decide (now ≤ r.time))).take 8).map roundRec2 ∧
      res.next_24h_forecast.length ≤ 8 ∧
      (∀ x ∈ res.next_24h_forecast, now ≤ x.time) ∧
      ((rows.filter (fun r => decide (now ≤ r.time))).length ≤ 8 →
        res.next_24h_forecast.length =
          (rows.filter (fun r => decide (now ≤ r.time))).length) ∧
      (rows.Pairwise (fun a b => a.time ≤ b.time) →
        res.next_24h_forecast.Pairwise (fun a b => a.time ≤ b.time)) := by
  intro th now cols raws rows res hparse hok
  obtain ⟨cm, rfl⟩ := analyzeKpData_ok_elim hparse hok
  refine ⟨rfl, ?_, ?_, ?_, ?_⟩
  · show (((rows.filter (fun r => decide (now ≤ r.time))).take 8).map
        roundRec2).length ≤ 8
    rw [List.length_map]
    exact List.length_take_le 8 _
  · intro x hx
    rcases List.mem_map.mp hx with ⟨r, hr, rfl⟩
    have hr2 : r ∈ rows.filter (fun r => decide (now ≤ r.time)) :=
      List.mem_of_mem_take hr
    have hdec := (List.mem_filter.mp hr2).2
    rw [roundRec2_time]
    exact of_decide_eq_true hdec
  · intro hle
    show (((rows.filter (fun r => decide (now ≤ r.time))).take 8).map
        roundRec2).length = _
    rw [List.length_map, List.length_take]
    omega
  · intro hs
    show (((rows.filter (fun r => decide (now ≤ r.time))).take 8).map
        roundRec2).Pairwise (fun a b => a.time ≤ b.time)
    rw [List.pairwise_map]
    have h1 := hs.filter (fun r => decide (now ≤ r.time))
    have h2 := h1.sublist (List.take_sublist 8 _)
    exact h2.imp (fun hab => hab)

/-- Concrete three-future-record table for the C2 witness. -/
def c2SmallRaws : List RawRecord :=
  [{ time := some 0, minimum := some 1, median := some 2, maximum := some 3,
     members := [some 3] },
   { time := some 180, minimum := some 1, median := some 2, maximum := some 3,
     members := [some 3] },
   { time := some 360, minimum := some 1, median := some 2, maximum := some 3,
     members := [some 3] }]

/-- The converted rows of `c2SmallRaws`. -/
def c2SmallRows : List KpRecord :=
  [{ time := 0, minimum := some 1, median := some 2, maximum := 3,
     members := [3] },
   { time := 180, minimum := some 1, median := some 2, maximum := 3,
     members := [3] },
   { time := 360, minimum := some 1, median := some 2, maximum := 3,
     members := [3] }]

/-- The analysis result of `c2SmallRaws`. -/
def c2SmallRes : AnalysisResults := analyzeParsed 5 0 1 3 c2SmallRows

/-- C2 witness: with three qualifying records all of them are returned, in
ascending timestamp order. -/
theorem c2_amended_rolling_window_eight_witness :
    c2SmallRes.next_24h_forecast.length =
      (c2SmallRows.filter (fun r => decide ((0 : ℤ) ≤ r.time))).length ∧
    c2SmallRes.next_24h_forecast.Pairwise (fun a b => a.time ≤ b.time) := by
  have h := c2_amended_rolling_window_eight 5 0 [("kp_0")] c2SmallRaws
    c2SmallRows c2SmallRes (by decide) (by decide)
  exact ⟨h.2.2.2.1 (by decide), h.2.2.2.2 (by decide)⟩

/-- C3: a record belongs to the exceedance window of a completed analysis
pass exactly when its timestamp is at or after the reference instant and
its `maximum` statistic meets or exceeds the threshold, both comparisons
inclusive; the window holds one (rounded) record per matching row with no
cap on its length. -/
theorem c3_exceedance_window_membership :
    ∀ (th : ℚ) (now : ℤ) (cols : List String) (raws : List RawRecord)
      (rows : List KpRecord) (res : AnalysisResults),
      raws.mapM parseRow = some rows →
      analyzeKpData th now cols raws = AnalysisOutcome.ok res →
      res.high_kp_records =
        (rows.filter
          (fun r => decide (now ≤ r.time) && decide (th ≤ r.maximum))).map
          roundRec2 ∧
      (∀ x : KpRecord, x ∈ res.high_kp_records ↔
        ∃ r ∈ rows, th ≤ r.maximum ∧ now ≤ r.time ∧ x = roundRec2 r) ∧
      res.high_kp_records.length =
        rows.countP
          (fun r => decide (now ≤ r.time) && decide (th ≤ r.maximum)) := by
  intro th now cols raws rows res hparse hok
  obtain ⟨cm, rfl⟩ := analyzeKpData_ok_elim hparse hok
  have hff :
      (analyzeParsed th now ((cols.filter isEnsembleCol).length) cm
          rows).high_kp_records =
        (rows.filter
          (fun r => decide (now ≤ r.time) && decide (th ≤ r.maximum))).map
          roundRec2 := by
    show ((rows.filter (fun r => decide (th ≤ r.maximum))).filter
        (fun r => decide (now ≤ r.time))).map roundRec2 = _
    rw [List.filter_filter]
  refine ⟨hff, ?_, ?_⟩
  · intro x
    rw [hff]
    simp only [List.mem_map, List.mem_filter, Bool.and_eq_true,
      decide_eq_true_eq]
    constructor
    · rintro ⟨r, ⟨hr, htime, hmax⟩, rfl⟩
      exact ⟨r, hr, hmax, htime, rfl⟩
    · rintro ⟨r, hr, hmax, htime, rfl⟩
      exact ⟨r, ⟨hr, htime, hmax⟩, rfl⟩
  · rw [hff, List.length_map]
    exact (List.countP_eq_length_filter _ _).symm

/-- Concrete table for the C3 witness: a past high record, a future high
record and a future low record. -/
def c3Table : List RawRecord :=
  [{ time := some (-180), minimum := some 1, median := some 2,
     maximum := some 6, members := [some 6] },
   { time := some 180, minimum := some 1, median := some 2,
     maximum := some 6, members := [some 6] },
   { time := some 300, minimum := some 1, median := some 2,
     maximum := some 2, members := [some 2] }]

/-- The converted rows of `c3Table`. -/
def c3Rows : List KpRecord :=
  [{ time := -180, minimum := some 1, median := some 2, maximum := 6,
     members := [6] },
   { time := 180, minimum := some 1, median := some 2, maximum := 6,
     members := [6] },
   { time := 300, minimum := some 1, median := some 2, maximum := 2,
     members := [2] }]

/-- The analysis result of `c3Table`. -/
def c3Res : AnalysisResults := analyzeParsed 5 0 1 6 c3Rows

/-- C3 witness: the exceedance-window characterisation at the concrete
table, where only the future high record is kept. -/
theorem c3_exceedance_window_membership_witness :
    c3Res.high_kp_records =
      (c3Rows.filter
        (fun r => decide ((0 : ℤ) ≤ r.time) && decide ((5 : ℚ) ≤ r.maximum))).map
        roundRec2 ∧
    c3Res.high_kp_records.length =
      c3Rows.countP
        (fun r => decide ((0 : ℤ) ≤ r.time) && decide ((5 : ℚ) ≤ r.maximum)) := by
  have h := c3_exceedance_window_membership 5 0 [("kp_0")] c3Table c3Rows
    c3Res (by decide) (by decide)
  exact ⟨h.1, h.2.2⟩

/-- C8: in a completed analysis pass the probability series is aligned one
to one with the table's timestamps, and the probability at every row is the
(two-decimal rounded) count of ensemble member values meeting or exceeding
the threshold divided by the total count of discovered ensemble columns. -/
theorem c8_probability_count_over_total :
    ∀ (th : ℚ) (now : ℤ) (cols : List String) (raws : List RawRecord)
      (rows : List KpRecord) (res : AnalysisResults),
      raws.mapM parseRow = some rows →
      analyzeKpData th now cols raws = AnalysisOutcome.ok res →
      0 < (cols.filter isEnsembleCol).length →
      res.probability_df.map Prod.fst = rows.map KpRecord.time ∧
      (∀ i : ℕ, res.probability_df[i]? =
        (rows[i]?).map (fun r =>
          (r.time,
            round2
              (ensembleProbability th ((cols.filter isEnsembleCol).length)
                r)))) ∧
      (∀ r : KpRecord,
        ensembleProbability th ((cols.filter isEnsembleCol).length) r =
          ((r.members.countP (fun v => decide (th ≤ v)) : ℚ)) /
            (((cols.filter isEnsembleCol).length : ℕ) : ℚ)) := by
  intro th now cols raws rows res hparse hok hn
  obtain ⟨cm, rfl⟩ := analyzeKpData_ok_elim hparse hok
  refine ⟨?_, ?_, ?_⟩
  · show ((rows.map (fun r =>
        (r.time,
          round2
            (ensembleProbability th ((cols.filter isEnsembleCol).length)
              r)))).map Prod.fst) = rows.map KpRecord.time
    rw [List.map_map]
    rfl
  · intro i
    show (rows.map (fun r =>
        (r.time,
          round2
            (ensembleProbability th ((cols.filter isEnsembleCol).length)
              r))))[i]? = _
    rw [List.getElem?_map]
  · intro r
    unfold ensembleProbability
    rw [Rat.mkRat_eq_div]
    norm_num

/-- Ten ensemble column names for the C8 witness. -/
def c8Cols : List String :=
  [("kp_01"), ("kp_02"), ("kp_03"), ("kp_04"), ("kp_05"), ("kp_06"),
   ("kp_07"), ("kp_08"), ("kp_09"), ("kp_10")]

/-- One raw record with ten ensemble members, exactly three of which meet
the threshold 5, for the C8 witness. -/
def c8Raws : List RawRecord :=
  [{ time := some 0, minimum := some 1, median := some 2, maximum := some 3,
     members := [some 5, some 6, some 7, some 1, some 1, some 1, some 1,
                 some 1, some 1, some 1] }]

/-- The converted rows of `c8Raws`. -/
def c8Rows : List KpRecord :=
  [{ time := 0, minimum := some 1, median := some 2, maximum := 3,
     members := [5, 6, 7, 1, 1, 1, 1, 1, 1, 1] }]

/-- The analysis result of `c8Raws`. -/
def c8Res : AnalysisResults := analyzeParsed 5 0 10 3 c8Rows

/-- C8 witness: with ten members of which exactly three meet the threshold,
the probability of the timestep is 0.30. -/
theorem c8_probability_count_over_total_witness :
    c8Res.probability_df[0]? = some ((0 : ℤ), mkRat 3 10) ∧
    (c8Cols.filter isEnsembleCol).length = 10 := by
  have h := c8_probability_count_over_total 5 0 c8Cols c8Raws c8Rows c8Res
    (by decide) (by decide) (by decide)
  refine ⟨?_, by decide⟩
  rw [h.2.1 0]
  decide
